import Mathlib

/-!
Verification development for the DashNBA dashboard (src/app.py).

The application builds a single dataset from an external per-season
statistics provider and renders filtered views of it.  We embed the
data-loading pipeline (`fetch_team_stats_for_season`, `load_dataset`),
the filter steps and the data computed by each view
(`render_metrics`, `plot_top_bar`, `plot_scatter`, `plot_evolution`,
CSV export) as pure Lean functions over lists of rows.

Modelling conventions:
- dataframe rows are structures over `ℚ` (the numeric columns) and
  `String` (season / team name); a dataframe is a `List` of rows in
  display order;
- the external provider is a function `String → Except String (List RawRow)`;
  a raised network/provider exception is `Except.error`;
- `pandas` NaN produced by aggregating an empty column is modelled by
  `Option.none`; the left-join's missing champion is `Option.none` and the
  boolean comparison against it yields `false`, as in pandas;
- `RawRow` carries exactly the columns of the keep-list projection
  (`keep` at src/app.py:136); further provider columns are dropped by
  that projection and never observable, so they are not modelled.
-/

/-- Raw per-team row returned by the provider, restricted to the columns kept
by the projection step of `load_dataset` (src/app.py:136). -/
structure RawRow where
  team_name : String
  gp : ℚ
  w : ℚ
  l : ℚ
  fg3m : ℚ
  fg3a : ℚ
  fg3_pct : ℚ
  pts : ℚ
  deriving DecidableEq

/-- A raw row tagged with the season it was fetched for
(src/app.py:123, `df["SEASON"] = season`). -/
structure TaggedRow where
  season : String
  team_name : String
  gp : ℚ
  w : ℚ
  l : ℚ
  fg3m : ℚ
  fg3a : ℚ
  fg3_pct : ℚ
  pts : ℚ
  deriving DecidableEq

/-- The fixed ten-season list (src/app.py:97). -/
def SEASONS : List String :=
  ["2014-15", "2015-16", "2016-17", "2017-18", "2018-19",
   "2019-20", "2020-21", "2021-22", "2022-23", "2023-24"]

/-- The static season → champion lookup (src/app.py:102).  Modelled as an
association list; its keys are pairwise distinct, so the pandas left merge
on SEASON behaves as a lookup. -/
def CHAMPIONS_DATA : List (String × String) :=
  [("2014-15", "Golden State Warriors"),
   ("2015-16", "Cleveland Cavaliers"),
   ("2016-17", "Golden State Warriors"),
   ("2017-18", "Golden State Warriors"),
   ("2018-19", "Toronto Raptors"),
   ("2019-20", "Los Angeles Lakers"),
   ("2020-21", "Milwaukee Bucks"),
   ("2021-22", "Golden State Warriors"),
   ("2022-23", "Denver Nuggets"),
   ("2023-24", "Boston Celtics")]

/-- Tag one raw row with its season (src/app.py:123). -/
def tagRow (season : String) (r : RawRow) : TaggedRow :=
  { season := season, team_name := r.team_name, gp := r.gp, w := r.w, l := r.l,
    fg3m := r.fg3m, fg3a := r.fg3a, fg3_pct := r.fg3_pct, pts := r.pts }

/-- Embedding of `fetch_team_stats_for_season` (src/app.py:120): call the
provider for one season and tag every returned row with that season.
A provider failure propagates unchanged (no retry, no partial result). -/
def fetch_team_stats_for_season (provider : String → Except String (List RawRow))
    (season : String) : Except String (List TaggedRow) :=
  (provider season).map (fun rows => rows.map (tagRow season))

/-- The per-season fetch loop of `load_dataset` (src/app.py:128-132): one
fetch per season of the fixed list, in order.  The pacing sleep has no
observable effect on the data and is not modelled. -/
def aggregateFrames (provider : String → Except String (List RawRow)) :
    Except String (List (List TaggedRow)) :=
  SEASONS.mapM (fetch_team_stats_for_season provider)

/-- Scale one row's FG3_PCT by 100 (the body of the normalization branch,
src/app.py:141). -/
def scaleRow (r : TaggedRow) : TaggedRow := { r with fg3_pct := r.fg3_pct * 100 }

/-- Percentage normalization (src/app.py:140-141): if the table-wide maximum
of FG3_PCT is ≤ 1, multiply the whole column by 100, else leave the table
unchanged.  `List.maximum` returns `⊥` for the empty table; pandas returns
NaN there and takes the no-scaling branch, and on the empty table both
branches are the empty table, so the difference is unobservable. -/
def normalizeFG3 (rows : List TaggedRow) : List TaggedRow :=
  if (rows.map (·.fg3_pct)).maximum ≤ 1 then rows.map scaleRow else rows

/-- A row of the final dataset: kept columns, derived columns
(src/app.py:144-147), the left-joined champion name (src/app.py:150) and
the champion flag (src/app.py:151). -/
structure Row where
  season : String
  team_name : String
  gp : ℚ
  w : ℚ
  l : ℚ
  fg3m : ℚ
  fg3a : ℚ
  fg3_pct : ℚ
  pts : ℚ
  threes_per_game : ℚ
  threes_att_per_game : ℚ
  points_from_3 : ℚ
  percent_points_3 : ℚ
  champion_team : Option String
  is_champion : Bool
  deriving DecidableEq

/-- Per-row tail of the pipeline (src/app.py:144-151): derived columns,
left join against `CHAMPIONS_DATA` on season, and the champion flag.
A missing champion gives `champion_team = none` and the boolean comparison
against it is `false`, as the pandas comparison against NaN. -/
def finishRow (r : TaggedRow) : Row :=
  let champ := CHAMPIONS_DATA.lookup r.season
  { season := r.season, team_name := r.team_name, gp := r.gp, w := r.w, l := r.l,
    fg3m := r.fg3m, fg3a := r.fg3a, fg3_pct := r.fg3_pct, pts := r.pts,
    threes_per_game := r.fg3m, threes_att_per_game := r.fg3a,
    points_from_3 := r.fg3m * 3,
    percent_points_3 := r.fg3m * 3 / r.pts * 100,
    champion_team := champ,
    is_champion := match champ with
      | some c => decide (r.team_name = c)
      | none => false }

/-- The pure tail of `load_dataset` after concatenation (src/app.py:136-151):
keep-list projection (structural on `TaggedRow`), table-wide percentage
normalization, then the per-row derived columns, champion join and flag. -/
def processFrames (rows : List TaggedRow) : List Row :=
  (normalizeFG3 rows).map finishRow

/-- Embedding of `load_dataset` (src/app.py:127-153): fetch every season of
the fixed list, concatenate the per-season tables in order, then run the
projection / normalization / derivation / join pipeline. -/
def load_dataset (provider : String → Except String (List RawRow)) :
    Except String (List Row) :=
  (aggregateFrames provider).map (fun frames => processFrames frames.flatten)

/-! Filter layer (src/app.py:282, 290-291). -/

/-- Season filter: `df[df["SEASON"] == selected_season]` (src/app.py:282). -/
def seasonFilter (df : List Row) (selected_season : String) : List Row :=
  df.filter (fun r => r.season = selected_season)

/-- Team filter: `df_season[df_season["TEAM_NAME"].isin(selected_teams)]`
(src/app.py:290). -/
def teamFilter (df_season : List Row) (selected_teams : List String) : List Row :=
  df_season.filter (fun r => selected_teams.contains r.team_name)

/-- Minimum-3PT% filter: `df_filtered[df_filtered["FG3_PCT"] >= min_fg3_pct]`
(src/app.py:291), an inclusive lower bound. -/
def pctFilter (df_filtered : List Row) (min_fg3_pct : ℚ) : List Row :=
  df_filtered.filter (fun r => min_fg3_pct ≤ r.fg3_pct)

/-- The full filter chain of `main` (src/app.py:282, 290-291): season, then
team membership, then the inclusive 3PT% lower bound. -/
def filterRows (df : List Row) (selected_season : String)
    (selected_teams : List String) (min_fg3_pct : ℚ) : List Row :=
  pctFilter (teamFilter (seasonFilter df selected_season) selected_teams) min_fg3_pct

/-! View layer: the data each renderer computes from its input dataframe. -/

/-- Mean of a numeric column, as pandas `Series.mean`: NaN on the empty
column, modelled as `none` (src/app.py:159-160). -/
def meanQ (xs : List ℚ) : Option ℚ :=
  if xs.isEmpty then none else some (xs.sum / xs.length)

/-- The four metric cards of `render_metrics`: league averages, the champion
3PT% card (value and delta against the league average), and the champion
percent-of-points-from-three card.  `none` is the "N/A" state. -/
structure Metrics where
  avg_att : Option ℚ
  avg_pct : Option ℚ
  champ_pct_card : Option (ℚ × ℚ)
  champ_p3_card : Option ℚ
  deriving DecidableEq

/-- Embedding of `render_metrics` (src/app.py:156-182): league means over the
filtered table, `champ_row = df_filtered[df_filtered["IS_CHAMPION"]].head(1)`
modelled by `head?` of the champion filter, and the two champion cards, which
show "N/A" (`none`) when no champion row is present.  The delta of the
champion 3PT% card is champion 3PT% minus the league average 3PT%; a present
champion row forces a nonempty table, so the league average is then `some`. -/
def render_metrics (df_filtered : List Row) : Metrics :=
  let avg_att := meanQ (df_filtered.map (·.threes_att_per_game))
  let avg_pct := meanQ (df_filtered.map (·.fg3_pct))
  let champ_row := (df_filtered.filter (·.is_champion)).head?
  { avg_att := avg_att
    avg_pct := avg_pct
    champ_pct_card :=
      match champ_row, avg_pct with
      | some r, some a => some (r.fg3_pct, r.fg3_pct - a)
      | _, _ => none
    champ_p3_card := champ_row.map (·.percent_points_3) }

/-- Embedding of the data behind `plot_top_bar` (src/app.py:184-189):
`nlargest(10, "THREES_PER_GAME")` (stable descending sort, take 10) followed
by `sort_values("THREES_PER_GAME")` ascending. -/
def plot_top_bar (df_filtered : List Row) : List Row :=
  ((df_filtered.mergeSort (fun a b => b.threes_per_game ≤ a.threes_per_game)).take 10).mergeSort
    (fun a b => a.threes_per_game ≤ b.threes_per_game)

/-- Embedding of the data behind `plot_scatter` (src/app.py:212-222): one
point per row, carrying x (attempts per game), y (3PT%), size (wins),
colour (champion flag) and hover name (team). -/
def plot_scatter (df_filtered : List Row) : List (ℚ × ℚ × ℚ × Bool × String) :=
  df_filtered.map (fun r =>
    (r.threes_att_per_game, r.fg3_pct, r.w, r.is_champion, r.team_name))

/-- Embedding of the data behind `plot_evolution` (src/app.py:233-240),
which is called on the FULL dataset (src/app.py:307): the league series is
the per-season mean of attempts per game (`groupby("SEASON").mean()`; the
enumeration order of the distinct seasons is immaterial to the claims and
modelled by `dedup`), and the champion series is the attempts per game of
every champion-flagged row. -/
def plot_evolution (df_all : List Row) : List (String × ℚ) × List (String × ℚ) :=
  let seasonKeys := (df_all.map (·.season)).dedup
  let league := seasonKeys.map (fun s =>
    let grp := (df_all.filter (fun r => r.season = s)).map (·.threes_att_per_game)
    (s, grp.sum / grp.length))
  let champs := (df_all.filter (·.is_champion)).map
    (fun r => (r.season, r.threes_att_per_game))
  (league, champs)

/-! CSV export (src/app.py:312-336). -/

/-- The renamed display columns, in order (src/app.py:317-326). -/
def display_cols_renamed : List String :=
  ["Time", "Vitórias", "Derrotas", "3PT/Jogo", "Tentativas 3PT/Jogo",
   "3PT %", "% Pontos do 3PT", "Campeão"]

/-- One row of the displayed / exported table, fields in column order
(src/app.py:312-316). -/
structure DisplayRow where
  time : String
  vitorias : ℚ
  derrotas : ℚ
  tres_jogo : ℚ
  tentativas_3pt_jogo : ℚ
  pct_3pt : ℚ
  pct_pontos_3pt : ℚ
  campeao : Bool
  deriving DecidableEq

/-- Projection of a dataset row onto the eight displayed columns
(src/app.py:312-316). -/
def displayRow (r : Row) : DisplayRow :=
  { time := r.team_name, vitorias := r.w, derrotas := r.l,
    tres_jogo := r.threes_per_game, tentativas_3pt_jogo := r.threes_att_per_game,
    pct_3pt := r.fg3_pct, pct_pontos_3pt := r.percent_points_3,
    campeao := r.is_champion }

/-- The displayed table `df_display` (src/app.py:317): one display row per
filtered row, in order. -/
def df_display (df_filtered : List Row) : List DisplayRow :=
  df_filtered.map displayRow

/-- The CSV payload: header row followed by the data rows
(src/app.py:330, `df_display.to_csv(index=False)`). -/
def csv_export (df_filtered : List Row) : List String × List DisplayRow :=
  (display_cols_renamed, df_display df_filtered)

/-- The download filename `f"nba_stats_{selected_season}.csv"`
(src/app.py:334). -/
def csv_file_name (selected_season : String) : String :=
  "nba_stats_" ++ selected_season ++ ".csv"

/-- Champion-row predicate for one season, read off the final dataset. -/
def champInSeason (s : String) (r : Row) : Bool :=
  decide (r.season = s) && r.is_champion

/-! Concrete data used to instantiate the theorems below. -/

/-- A concrete provider row (the 2023-24 champion's team name, so the
champion flag is exercised). -/
def sampleRow : RawRow :=
  { team_name := "Boston Celtics", gp := 82, w := 64, l := 18,
    fg3m := 16, fg3a := 42, fg3_pct := 38, pts := 120 }

/-- A provider that succeeds on every season with the single sample row. -/
def sampleProvider : String → Except String (List RawRow) := fun _ => .ok [sampleRow]

/-- The dataset `load_dataset` produces under `sampleProvider`. -/
def sampleDS : List Row :=
  processFrames ((SEASONS.map (fun s => ([sampleRow]).map (tagRow s))).flatten)

/-- The first row of `sampleDS`. -/
def firstSampleRow : Row := finishRow (tagRow "2014-15" sampleRow)

/-- A provider whose call always fails. -/
def errProvider : String → Except String (List RawRow) := fun _ => .error "network down"

/-- A concrete tagged row whose FG3_PCT is already on the 0-100 scale. -/
def trow : TaggedRow :=
  { season := "2023-24", team_name := "X", gp := 1, w := 1, l := 0,
    fg3m := 1, fg3a := 2, fg3_pct := 38, pts := 10 }

/-- Concrete dataset rows for the view-layer claims. -/
def rowA : Row :=
  { season := "2022-23", team_name := "A", gp := 1, w := 1, l := 0,
    fg3m := 10, fg3a := 20, fg3_pct := 50, pts := 100,
    threes_per_game := 10, threes_att_per_game := 20,
    points_from_3 := 30, percent_points_3 := 30,
    champion_team := none, is_champion := false }

def rowB : Row :=
  { season := "2023-24", team_name := "B", gp := 1, w := 2, l := 0,
    fg3m := 12, fg3a := 40, fg3_pct := 30, pts := 100,
    threes_per_game := 12, threes_att_per_game := 40,
    points_from_3 := 36, percent_points_3 := 36,
    champion_team := none, is_champion := false }

/-- Two full datasets that agree after filtering to season 2022-23. -/
def d1ev : List Row := [rowA]

def d2ev : List Row := [rowA, rowB]

/-- Two champion-flagged rows in one season (a situation `load_dataset` is
not assumed to rule out; `render_metrics` accepts any dataframe). -/
def rowC1 : Row :=
  { season := "2022-23", team_name := "C", gp := 1, w := 3, l := 0,
    fg3m := 14, fg3a := 35, fg3_pct := 40, pts := 100,
    threes_per_game := 14, threes_att_per_game := 35,
    points_from_3 := 42, percent_points_3 := 42,
    champion_team := some "C", is_champion := true }

def rowC2 : Row :=
  { season := "2022-23", team_name := "D", gp := 1, w := 4, l := 0,
    fg3m := 15, fg3a := 36, fg3_pct := 41, pts := 100,
    threes_per_game := 15, threes_att_per_game := 36,
    points_from_3 := 45, percent_points_3 := 45,
    champion_team := some "D", is_champion := true }

def dChamp2 : List Row := [rowC1, rowC2]

/-! Helper lemmas. -/

/-- If the provider succeeds on every listed season, the per-season fetch
loop succeeds and returns the in-order list of tagged per-season tables. -/
theorem mapM_fetch_ok (provider : String → Except String (List RawRow))
    (rowsOf : String → List RawRow) :
    ∀ seasons : List String, (∀ s ∈ seasons, provider s = Except.ok (rowsOf s)) →
      seasons.mapM (fetch_team_stats_for_season provider)
        = Except.ok (seasons.map (fun s => (rowsOf s).map (tagRow s))) := by
  intro seasons
  induction seasons with
  | nil => intro _; rfl
  | cons s ss ih =>
      intro hp
      have hs : provider s = Except.ok (rowsOf s) := hp s (by simp)
      have hss := ih (fun t ht => hp t (by simp [ht]))
      simp only [List.mapM_cons, hss, fetch_team_stats_for_season, hs, List.map_cons]
      rfl

/-- Under a fully successful provider, `load_dataset` returns the processed
concatenation of the tagged per-season tables. -/
theorem load_dataset_ok (provider : String → Except String (List RawRow))
    (rowsOf : String → List RawRow)
    (hp : ∀ s ∈ SEASONS, provider s = Except.ok (rowsOf s)) :
    load_dataset provider
      = Except.ok (processFrames
          ((SEASONS.map (fun s => (rowsOf s).map (tagRow s))).flatten)) := by
  unfold load_dataset aggregateFrames
  rw [mapM_fetch_ok provider rowsOf SEASONS hp]
  rfl

/-- The normalization step is either a whole-column scaling or the identity. -/
theorem normalizeFG3_shape (rows : List TaggedRow) :
    normalizeFG3 rows = rows.map scaleRow ∨ normalizeFG3 rows = rows := by
  unfold normalizeFG3
  split
  · exact Or.inl rfl
  · exact Or.inr rfl

/-- Every row of the processed table is `finishRow` of some tagged row. -/
theorem mem_processFrames {r : Row} {rows : List TaggedRow}
    (h : r ∈ processFrames rows) : ∃ t, r = finishRow t := by
  unfold processFrames at h
  rcases List.mem_map.mp h with ⟨t, _, ht⟩
  exact ⟨t, ht.symm⟩

/-- Scaling does not change season, team, or the champion flag of the
finished row. -/
theorem finishRow_scaleRow_flag (t : TaggedRow) (s : String) :
    champInSeason s (finishRow (scaleRow t)) = champInSeason s (finishRow t) := rfl

/-- Counting champion-flagged rows after processing equals counting them on
the tagged rows. -/
theorem countP_processFrames (rows : List TaggedRow) (s : String) :
    (processFrames rows).countP (champInSeason s)
      = rows.countP (fun t => champInSeason s (finishRow t)) := by
  unfold processFrames
  rcases normalizeFG3_shape rows with h | h <;> rw [h]
  · rw [List.countP_map, List.countP_map]
    rfl
  · rw [List.countP_map]
    rfl

/-- Champion flag of a tagged row, unfolded: it holds exactly when the
champion lookup for the row's season names the row's team. -/
theorem champInSeason_finishRow_tagRow (s s₀ : String) (raw : RawRow) :
    champInSeason s₀ (finishRow (tagRow s raw))
      = (decide (s = s₀) &&
          (match CHAMPIONS_DATA.lookup s with
           | some c => decide (raw.team_name = c)
           | none => false)) := rfl

/-- A frame fetched for a season other than `s₀` contributes no
`s₀`-champion rows. -/
theorem frame_countP_ne (rowsOf : String → List RawRow) (s s₀ : String)
    (hne : s ≠ s₀) :
    ((rowsOf s).map (tagRow s)).countP (fun t => champInSeason s₀ (finishRow t)) = 0 := by
  rw [List.countP_map]
  apply List.countP_eq_zero.mpr
  intro raw _
  simp only [Function.comp, champInSeason_finishRow_tagRow]
  simp [hne]

/-- In a list whose images under `f` are pairwise distinct, at most one
element maps to any given value. -/
theorem countP_fiber_le_one {α β : Type} [DecidableEq β] (f : α → β) (c : β) :
    ∀ l : List α, (l.map f).Nodup → l.countP (fun x => decide (f x = c)) ≤ 1 := by
  intro l
  induction l with
  | nil => intro _; simp
  | cons a l ih =>
      intro h
      rw [List.map_cons, List.nodup_cons] at h
      rw [List.countP_cons]
      by_cases hac : f a = c
      · have hzero : l.countP (fun x => decide (f x = c)) = 0 := by
          apply List.countP_eq_zero.mpr
          intro x hx
          simp only [decide_eq_true_eq]
          intro hxc
          exact h.1 (List.mem_map.mpr ⟨x, hx, by rw [hxc, hac]⟩)
        simp [hzero, hac]
      · simp [hac, ih h.2]

/-- A frame fetched for season `s₀` itself contributes at most one
`s₀`-champion row, provided its team names are pairwise distinct. -/
theorem frame_countP_self (rowsOf : String → List RawRow) (s₀ : String)
    (hnd : ((rowsOf s₀).map RawRow.team_name).Nodup) :
    ((rowsOf s₀).map (tagRow s₀)).countP (fun t => champInSeason s₀ (finishRow t)) ≤ 1 := by
  rw [List.countP_map]
  have key : (rowsOf s₀).countP ((fun t => champInSeason s₀ (finishRow t)) ∘ tagRow s₀)
      = (rowsOf s₀).countP (fun raw =>
          match CHAMPIONS_DATA.lookup s₀ with
          | some c => decide (raw.team_name = c)
          | none => false) := by
    apply List.countP_congr
    intro raw _
    simp only [Function.comp_apply, champInSeason_finishRow_tagRow]
    simp
  rw [key]
  cases hc : CHAMPIONS_DATA.lookup s₀ with
  | none =>
      simp only [hc]
      simp
  | some c =>
      simp only [hc]
      exact countP_fiber_le_one RawRow.team_name c (rowsOf s₀) hnd

/-- If `s₀` was never fetched, no `s₀`-champion row exists in the
concatenated table. -/
theorem flatten_countP_zero (rowsOf : String → List RawRow) (s₀ : String) :
    ∀ seasons : List String, s₀ ∉ seasons →
      ((seasons.map (fun s => (rowsOf s).map (tagRow s))).flatten).countP
          (fun t => champInSeason s₀ (finishRow t)) = 0 := by
  intro seasons
  induction seasons with
  | nil => intro _; rfl
  | cons s ss ih =>
      intro hmem
      rw [List.map_cons, List.flatten_cons, List.countP_append]
      have h1 : s ≠ s₀ := fun h => hmem (by simp [h])
      rw [frame_countP_ne rowsOf s s₀ h1, ih (fun h => hmem (by simp [h]))]

/-- Over a duplicate-free season list whose per-season tables have
pairwise-distinct team names, the concatenated table holds at most one
`s₀`-champion row. -/
theorem flatten_countP_le_one (rowsOf : String → List RawRow) (s₀ : String) :
    ∀ seasons : List String, seasons.Nodup →
      (∀ s ∈ seasons, ((rowsOf s).map RawRow.team_name).Nodup) →
      ((seasons.map (fun s => (rowsOf s).map (tagRow s))).flatten).countP
          (fun t => champInSeason s₀ (finishRow t)) ≤ 1 := by
  intro seasons
  induction seasons with
  | nil => intro _ _; simp
  | cons s ss ih =>
      intro hnd hteams
      rw [List.nodup_cons] at hnd
      rw [List.map_cons, List.flatten_cons, List.countP_append]
      by_cases hs : s = s₀
      · subst hs
        have h2 : ((ss.map (fun u => (rowsOf u).map (tagRow u))).flatten).countP
            (fun t => champInSeason s (finishRow t)) = 0 :=
          flatten_countP_zero rowsOf s ss hnd.1
        rw [h2]
        simpa using frame_countP_self rowsOf s (hteams s (by simp))
      · rw [frame_countP_ne rowsOf s s₀ hs]
        simpa using ih hnd.2 (fun u hu => hteams u (by simp [hu]))

/-- Shape of one finished row: the champion flag is computed from the
champion lookup of the row's own season and team name. -/
theorem finishRow_flag (t : TaggedRow) :
    ((finishRow t).is_champion = true →
        CHAMPIONS_DATA.lookup (finishRow t).season = some (finishRow t).team_name) ∧
    (CHAMPIONS_DATA.lookup (finishRow t).season = none →
        (finishRow t).is_champion = false) := by
  cases hc : CHAMPIONS_DATA.lookup t.season with
  | none =>
      constructor
      · intro htrue
        simp only [finishRow, hc] at htrue
        exact absurd htrue (by simp)
      · intro _
        simp [finishRow, hc]
  | some c =>
      constructor
      · intro htrue
        simp only [finishRow, hc, decide_eq_true_eq] at htrue
        simp [finishRow, hc, htrue]
      · intro hnone
        simp only [finishRow] at hnone
        rw [hc] at hnone
        exact absurd hnone (by simp)

/-- The fixed season list has no duplicates. -/
theorem SEASONS_nodup : SEASONS.Nodup := by decide

/-! Sanity checks of the embedding on concrete data. -/

/-- Under the sample provider, `load_dataset` succeeds with `sampleDS`. -/
theorem load_dataset_sample : load_dataset sampleProvider = Except.ok sampleDS :=
  load_dataset_ok sampleProvider (fun _ => [sampleRow]) (fun _ _ => rfl)

/-- `sampleDS` flags exactly one champion row in 2023-24 (the sample team is
that season's champion)... -/
theorem sampleDS_count_2324 : sampleDS.countP (champInSeason "2023-24") = 1 := by decide

/-- ...and none in 2022-23, whose champion is a different team. -/
theorem sampleDS_count_2223 : sampleDS.countP (champInSeason "2022-23") = 0 := by decide

/-! The claims. -/

/-- C1: in the dataset produced by `load_dataset`, assuming the provider
returns at most one row per (season, team) pair, the champion flag is true
for at most one row per season, is true only when the row's team name equals
the `CHAMPIONS_DATA` entry for that season, and is false (a genuine boolean,
not a null) for every row of a season with no `CHAMPIONS_DATA` entry. -/
theorem c1_champion_flag_invariants (provider : String → Except String (List RawRow))
    (rowsOf : String → List RawRow)
    (hp : ∀ s ∈ SEASONS, provider s = Except.ok (rowsOf s))
    (hteams : ∀ s ∈ SEASONS, ((rowsOf s).map RawRow.team_name).Nodup)
    (ds : List Row) (hds : load_dataset provider = Except.ok ds) :
    (∀ s₀ : String, ds.countP (champInSeason s₀) ≤ 1) ∧
    (∀ r ∈ ds, r.is_champion = true →
        CHAMPIONS_DATA.lookup r.season = some r.team_name) ∧
    (∀ r ∈ ds, CHAMPIONS_DATA.lookup r.season = none → r.is_champion = false) := by
  have hball := load_dataset_ok provider rowsOf hp
  rw [hds] at hball
  have hdseq : ds = processFrames ((SEASONS.map (fun s => (rowsOf s).map (tagRow s))).flatten) :=
    (Except.ok.injEq _ _).mp hball
  refine ⟨?_, ?_, ?_⟩
  · intro s₀
    rw [hdseq, countP_processFrames]
    exact flatten_countP_le_one rowsOf s₀ SEASONS SEASONS_nodup hteams
  · intro r hr htrue
    rcases mem_processFrames (hdseq ▸ hr) with ⟨t, ht⟩
    rw [ht] at htrue ⊢
    exact (finishRow_flag t).1 htrue
  · intro r hr hnone
    rcases mem_processFrames (hdseq ▸ hr) with ⟨t, ht⟩
    rw [ht] at hnone ⊢
    exact (finishRow_flag t).2 hnone

/-- C1 witness: the invariant instantiated at the sample provider. -/
theorem c1_witness :
    load_dataset sampleProvider = Except.ok sampleDS ∧
    sampleDS.countP (champInSeason "2023-24") ≤ 1 :=
  ⟨load_dataset_ok sampleProvider (fun _ => [sampleRow]) (fun _ _ => rfl),
   (c1_champion_flag_invariants sampleProvider (fun _ => [sampleRow])
      (fun _ _ => rfl)
      (fun _ _ => by show (([sampleRow]).map RawRow.team_name).Nodup; decide) sampleDS
      (load_dataset_ok sampleProvider (fun _ => [sampleRow]) (fun _ _ => rfl))).1 "2023-24"⟩

/-- C2: the percentage-normalization step is idempotent — on any table whose
normalized FG3_PCT column contains a value above 1, running the step a
second time changes nothing. -/
theorem c2_normalize_idempotent (rows : List TaggedRow) (r : TaggedRow)
    (hr : r ∈ normalizeFG3 rows) (h1 : 1 < r.fg3_pct) :
    normalizeFG3 (normalizeFG3 rows) = normalizeFG3 rows := by
  have hmem : r.fg3_pct ∈ (normalizeFG3 rows).map (·.fg3_pct) :=
    List.mem_map.mpr ⟨r, hr, rfl⟩
  have hle : (r.fg3_pct : WithBot ℚ) ≤ ((normalizeFG3 rows).map (·.fg3_pct)).maximum :=
    List.le_maximum_of_mem' hmem
  have hnot : ¬ ((normalizeFG3 rows).map (·.fg3_pct)).maximum ≤ 1 := by
    intro hmax
    have : (r.fg3_pct : WithBot ℚ) ≤ (1 : ℚ) := le_trans hle hmax
    rw [WithBot.coe_le_coe] at this
    exact absurd this (not_le.mpr h1)
  conv_lhs => rw [normalizeFG3]
  rw [if_neg hnot]

/-- C2 witness: a one-row table already on the 0-100 scale. -/
theorem c2_witness :
    trow ∈ normalizeFG3 [trow] ∧ 1 < trow.fg3_pct ∧
    normalizeFG3 (normalizeFG3 [trow]) = normalizeFG3 [trow] :=
  ⟨by decide, by decide, c2_normalize_idempotent [trow] trow (by decide) (by decide)⟩

/-- C3: every row of the dataset produced by `load_dataset` satisfies
points-from-three = makes × 3, and — when total points are positive —
percent-of-points-from-three = makes × 3 ÷ points × 100, exactly. -/
theorem c3_derived_columns (provider : String → Except String (List RawRow))
    (ds : List Row) (hds : load_dataset provider = Except.ok ds) :
    ∀ r ∈ ds, r.points_from_3 = r.fg3m * 3 ∧
      (0 < r.pts → r.percent_points_3 = r.fg3m * 3 / r.pts * 100) := by
  intro r hr
  unfold load_dataset at hds
  cases hagg : aggregateFrames provider with
  | error e => rw [hagg] at hds; exact absurd hds (by simp [Except.map])
  | ok frames =>
      rw [hagg] at hds
      simp only [Except.map, Except.ok.injEq] at hds
      rcases mem_processFrames (hds ▸ hr) with ⟨t, ht⟩
      subst ht
      exact ⟨rfl, fun _ => rfl⟩

/-- C3 witness: the derived-column identities on the first sample row. -/
theorem c3_witness :
    firstSampleRow ∈ sampleDS ∧ 0 < firstSampleRow.pts ∧
    firstSampleRow.points_from_3 = firstSampleRow.fg3m * 3 ∧
    firstSampleRow.percent_points_3
      = firstSampleRow.fg3m * 3 / firstSampleRow.pts * 100 := by
  have hmem : firstSampleRow ∈ sampleDS := by
    show firstSampleRow ∈ List.map finishRow
      (normalizeFG3 ((SEASONS.map (fun s => ([sampleRow]).map (tagRow s))).flatten))
    exact List.mem_map.mpr ⟨tagRow "2014-15" sampleRow, by decide, rfl⟩
  have hc := c3_derived_columns sampleProvider sampleDS
    (load_dataset_ok sampleProvider (fun _ => [sampleRow]) (fun _ _ => rfl))
    firstSampleRow hmem
  exact ⟨hmem, by decide, hc.1, hc.2 (by decide)⟩

/-- C4: under a fully successful provider, the Season Aggregator returns the
per-season tagged tables in season-list order (each preserving the
provider's row order), the concatenated table's row count is the sum of the
per-season fetch row counts, and every row's SEASON tag is the season it was
fetched for. -/
theorem c4_aggregator (provider : String → Except String (List RawRow))
    (rowsOf : String → List RawRow)
    (hp : ∀ s ∈ SEASONS, provider s = Except.ok (rowsOf s)) :
    aggregateFrames provider
        = Except.ok (SEASONS.map (fun s => (rowsOf s).map (tagRow s))) ∧
    ((SEASONS.map (fun s => (rowsOf s).map (tagRow s))).flatten).length
        = (SEASONS.map (fun s => (rowsOf s).length)).sum ∧
    (∀ s ∈ SEASONS, ∀ t ∈ (rowsOf s).map (tagRow s), t.season = s) := by
  refine ⟨mapM_fetch_ok provider rowsOf SEASONS hp, ?_, ?_⟩
  · rw [List.length_flatten, List.map_map]
    congr 1
    apply List.map_congr_left
    intro _ _
    simp
  · intro _s _ t ht
    rcases List.mem_map.mp ht with ⟨raw, _, hraw⟩
    rw [← hraw]
    rfl

/-- C4 witness: the aggregator facts at the sample provider. -/
theorem c4_witness :
    aggregateFrames sampleProvider
        = Except.ok (SEASONS.map (fun s => ([sampleRow]).map (tagRow s))) ∧
    ((SEASONS.map (fun s => ([sampleRow]).map (tagRow s))).flatten).length
        = (SEASONS.map (fun s => ([sampleRow] : List RawRow).length)).sum :=
  ⟨(c4_aggregator sampleProvider (fun _ => [sampleRow]) (fun _ _ => rfl)).1,
   (c4_aggregator sampleProvider (fun _ => [sampleRow]) (fun _ _ => rfl)).2.1⟩

/-- C5 counterexample: two full datasets whose filtered subsets (season
2022-23, team list ["A"], threshold 0) are equal, yet the evolution line
chart — drawn from the FULL dataset at src/app.py:307 — differs.  The claim
that all four views are projections of the filtered dataset is false. -/
theorem c5_counterexample :
    filterRows d1ev "2022-23" ["A"] 0 = filterRows d2ev "2022-23" ["A"] 0 ∧
    plot_evolution d1ev ≠ plot_evolution d2ev := by
  constructor
  · rfl
  · have hlen : (plot_evolution d1ev).1.length ≠ (plot_evolution d2ev).1.length := by
      decide
    exact fun h => hlen (congrArg (fun p => p.1.length) h)

/-- C5 (amended): the summary metric cards, the top-10 bar ranking and the
scatter chart are pure projections of the filtered dataset — equal filtered
subsets give equal outputs; the season-over-season evolution chart is
instead a pure function of the full dataset. -/
theorem c5_views_pure_amended (df₁ df₂ : List Row) (selected_season : String)
    (selected_teams : List String) (min_fg3_pct : ℚ)
    (h : filterRows df₁ selected_season selected_teams min_fg3_pct
        = filterRows df₂ selected_season selected_teams min_fg3_pct) :
    render_metrics (filterRows df₁ selected_season selected_teams min_fg3_pct)
        = render_metrics (filterRows df₂ selected_season selected_teams min_fg3_pct) ∧
    plot_top_bar (filterRows df₁ selected_season selected_teams min_fg3_pct)
        = plot_top_bar (filterRows df₂ selected_season selected_teams min_fg3_pct) ∧
    plot_scatter (filterRows df₁ selected_season selected_teams min_fg3_pct)
        = plot_scatter (filterRows df₂ selected_season selected_teams min_fg3_pct) := by
  rw [h]
  exact ⟨rfl, rfl, rfl⟩

/-- C5 witness: the amended purity at the two concrete datasets of the
counterexample, whose filtered subsets coincide. -/
theorem c5_witness :
    render_metrics (filterRows d1ev "2022-23" ["A"] 0)
        = render_metrics (filterRows d2ev "2022-23" ["A"] 0) ∧
    plot_top_bar (filterRows d1ev "2022-23" ["A"] 0)
        = plot_top_bar (filterRows d2ev "2022-23" ["A"] 0) ∧
    plot_scatter (filterRows d1ev "2022-23" ["A"] 0)
        = plot_scatter (filterRows d2ev "2022-23" ["A"] 0) :=
  c5_views_pure_amended d1ev d2ev "2022-23" ["A"] 0 rfl

/-- C6: the minimum-3PT% filter is an inclusive lower bound — on any table
whose 3PT% values lie in [0, 100], threshold 0 returns the table unchanged
and threshold 100 returns exactly the rows whose 3PT% equals 100. -/
theorem c6_pct_filter_bounds (d : List Row)
    (h0 : ∀ r ∈ d, 0 ≤ r.fg3_pct) (h100 : ∀ r ∈ d, r.fg3_pct ≤ 100) :
    pctFilter d 0 = d ∧
    pctFilter d 100 = d.filter (fun r => r.fg3_pct = 100) := by
  constructor
  · apply List.filter_eq_self.mpr
    intro r hr
    exact decide_eq_true (h0 r hr)
  · apply List.filter_congr
    intro r hr
    apply decide_eq_decide.mpr
    constructor
    · intro hle
      exact le_antisymm (h100 r hr) hle
    · intro heq
      rw [heq]

/-- C6 witness: the filter bounds on a concrete one-row table. -/
theorem c6_witness :
    0 ≤ rowA.fg3_pct ∧ rowA.fg3_pct ≤ 100 ∧
    pctFilter [rowA] 0 = [rowA] ∧
    pctFilter [rowA] 100 = ([rowA]).filter (fun r => r.fg3_pct = 100) :=
  ⟨by decide, by decide,
   (c6_pct_filter_bounds [rowA] (by decide) (by decide)).1,
   (c6_pct_filter_bounds [rowA] (by decide) (by decide)).2⟩

/-- C7: on the empty filtered dataset every downstream aggregation is total
and yields the designated empty / "N/A" value — the two league means are
`none` (pandas NaN), the champion-row lookup is `none`, all four metric
cards are the "N/A" state, and the top-10, scatter and evolution views are
empty. -/
theorem c7_empty_dataset_safe :
    meanQ (([] : List Row).map (·.threes_att_per_game)) = none ∧
    meanQ (([] : List Row).map (·.fg3_pct)) = none ∧
    (([] : List Row).filter (·.is_champion)).head? = none ∧
    render_metrics [] =
      { avg_att := none, avg_pct := none,
        champ_pct_card := none, champ_p3_card := none } ∧
    plot_top_bar [] = [] ∧
    plot_scatter [] = [] ∧
    plot_evolution [] = ([], []) := by
  refine ⟨rfl, rfl, rfl, rfl, ?_, rfl, rfl⟩
  simp [plot_top_bar]

/-- C8: the CSV export of any filtered view has exactly the eight renamed
columns in the order Time, Vitórias, Derrotas, 3PT/Jogo, Tentativas
3PT/Jogo, 3PT %, % Pontos do 3PT, Campeão, one data row per filtered row in
order, and the filename nba_stats_<selected season>.csv. -/
theorem c8_csv_export (df : List Row) (selected_season : String)
    (selected_teams : List String) (min_fg3_pct : ℚ) :
    (csv_export (filterRows df selected_season selected_teams min_fg3_pct)).1
        = ["Time", "Vitórias", "Derrotas", "3PT/Jogo", "Tentativas 3PT/Jogo",
           "3PT %", "% Pontos do 3PT", "Campeão"] ∧
    (csv_export (filterRows df selected_season selected_teams min_fg3_pct)).2
        = (filterRows df selected_season selected_teams min_fg3_pct).map displayRow ∧
    (csv_export (filterRows df selected_season selected_teams min_fg3_pct)).2.length
        = (filterRows df selected_season selected_teams min_fg3_pct).length ∧
    csv_file_name selected_season = "nba_stats_" ++ selected_season ++ ".csv" := by
  refine ⟨rfl, rfl, ?_, rfl⟩
  exact List.length_map _ _

/-- C9: the Remote Stats Fetcher fails exactly when the provider call fails,
propagating the provider's error unchanged — no retry, no partial result —
and on success returns precisely the provider's rows tagged with the
season. -/
theorem c9_fetch_error_propagation (provider : String → Except String (List RawRow))
    (season : String) :
    (∀ e, fetch_team_stats_for_season provider season = Except.error e ↔
        provider season = Except.error e) ∧
    (∀ rows, provider season = Except.ok rows →
        fetch_team_stats_for_season provider season
          = Except.ok (rows.map (tagRow season))) := by
  constructor
  · intro e
    unfold fetch_team_stats_for_season
    cases hps : provider season with
    | error e' => simp [Except.map]
    | ok rows => simp [Except.map]
  · intro rows hok
    unfold fetch_team_stats_for_season
    rw [hok]
    rfl

/-- C9 witness: a failing provider's error surfaces unchanged; a succeeding
provider's rows are returned tagged. -/
theorem c9_witness :
    fetch_team_stats_for_season errProvider "2014-15" = Except.error "network down" ∧
    fetch_team_stats_for_season sampleProvider "2014-15"
        = Except.ok (([sampleRow]).map (tagRow "2014-15")) :=
  ⟨((c9_fetch_error_propagation errProvider "2014-15").1 "network down").mpr rfl,
   (c9_fetch_error_propagation sampleProvider "2014-15").2 [sampleRow] rfl⟩

/-- C10: `render_metrics` uses only the first champion-flagged row (in row
order) of the filtered dataset for its two champion cards — with two or more
champion rows, the champion 3PT% card shows the first row's 3PT% (delta
against the league-average 3PT% of the whole filtered table) and the
%-points-from-three card shows the first row's value; later champion rows
are ignored by the champion-row selection. -/
theorem c10_first_champion_row (d : List Row) (r r2 : Row) (rs : List Row)
    (h : d.filter (·.is_champion) = r :: r2 :: rs) :
    (render_metrics d).champ_pct_card
        = some (r.fg3_pct, r.fg3_pct
            - (d.map (·.fg3_pct)).sum / ((d.map (·.fg3_pct)).length : ℚ)) ∧
    (render_metrics d).champ_p3_card = some r.percent_points_3 := by
  have hd : d ≠ [] := by
    intro h0
    rw [h0] at h
    exact absurd h (by simp)
  have hhead : (d.filter (·.is_champion)).head? = some r := by rw [h]; rfl
  have hne : (d.map (·.fg3_pct)).isEmpty = false := by
    cases d with
    | nil => exact absurd rfl hd
    | cons a l => rfl
  constructor
  · simp [render_metrics, hhead, meanQ, hne]
  · simp [render_metrics, hhead]

/-- C10 witness: a table with two champion rows — the cards are built from
the first one. -/
theorem c10_witness :
    (render_metrics dChamp2).champ_pct_card
        = some (rowC1.fg3_pct, rowC1.fg3_pct
            - (dChamp2.map (·.fg3_pct)).sum / ((dChamp2.map (·.fg3_pct)).length : ℚ)) ∧
    (render_metrics dChamp2).champ_p3_card = some rowC1.percent_points_3 :=
  c10_first_champion_row dChamp2 rowC1 rowC2 [] rfl
